import Mathlib

set_option maxRecDepth 8192
set_option linter.unusedVariables false

/-!
Verification development for the NOTCE AI tutor backend.

The definitions below are a shallow embedding of the Python source under
`backend/core/`: `views.py` (the Mock Study session endpoints and the
case-study generation endpoint), `mock_study_service.py` (the pure grading
helper), `gemini_service.py` (the evidence-link scoring pipeline),
`models.py`, `serializers.py` and `permissions.py`.

Modelling conventions:
* JSON dicts become structures whose fields mirror the dict keys; optional
  keys read with `dict.get(key, default)` become `Option` fields with the
  default applied at the read site, exactly as in the source.
* Machine integers are `Int`/`Nat`; the Python float expression
  `int((a / b) * 100)` is modelled as CPython evaluates it: true division to
  a correctly rounded IEEE-754 binary64 value, float multiplication by 100
  with a second rounding, then `int()` truncation toward zero — all carried
  out in exact integer arithmetic on (mantissa, exponent) pairs.
  `ZeroDivisionError` is surfaced through `Except` when the denominator is
  zero.
* Database rows are explicit values; a Django `Model.save()` is the point
  where the in-memory record becomes the returned "stored" record, and a
  code path that returns before `save()` leaves the stored record unchanged.
* Timestamps (`timezone.now()`) are abstract `Nat` values supplied by the
  caller.
-/

namespace Notce

/-- Python runtime errors that the embedded handlers can raise. -/
inductive PyErr
  | zeroDivision
  | attributeError
deriving DecidableEq, Repr

/-- Bit length of a natural number (number of binary digits; 0 for 0),
computed with structural fuel (at most `bitlen n` steps are taken, since the
argument is halved each step). -/
def bitlenAux : Nat → Nat → Nat
  | 0, _ => 0
  | fuel + 1, n => if n = 0 then 0 else bitlenAux fuel (n / 2) + 1

/-- Bit length of a natural number. -/
def bitlen (n : Nat) : Nat := bitlenAux n n

/-- IEEE-754 binary64 rounding (round to nearest, ties to even) of the exact
quotient `c / t` for `c, t ≥ 1`, returned as a `(mantissa, exponent)` pair
with value `mantissa * 2 ^ exponent` and a 53-bit mantissa.  The quotient is
first widened by `2 ^ K` so that the integer part carries more than 53 bits,
then rounded at the 53-bit boundary, with the discarded remainder of the
division kept exact so that ties are detected exactly.  Gradual underflow and
overflow are not modelled; they cannot occur for the session magnitudes this
development evaluates. -/
def roundDivD (c t : Nat) : Nat × Int :=
  let K := 53 + bitlen t
  let num := c * 2 ^ K
  let q := num / t
  let r := num % t
  let sh := bitlen q - 53
  let q2 := q / 2 ^ sh
  let rem := q % 2 ^ sh
  let lhs := 2 * (rem * t + r)
  let rhs := 2 ^ sh * t
  let m :=
    if lhs < rhs then q2
    else if rhs < lhs then q2 + 1
    else if q2 % 2 = 0 then q2 else q2 + 1
  (m, (sh : Int) - (K : Int))

/-- IEEE-754 binary64 rounding of `(m * 2 ^ e) * 100`: the factor 100 is
exact, so only the product mantissa `m * 100` must be re-rounded to 53 bits
(round to nearest, ties to even). -/
def roundMul100D (m : Nat) (e : Int) : Nat × Int :=
  let M := m * 100
  let b := bitlen M
  if b ≤ 53 then (M, e)
  else
    let sh := b - 53
    let q := M / 2 ^ sh
    let rem := M % 2 ^ sh
    let m2 :=
      if 2 * rem < 2 ^ sh then q
      else if 2 ^ sh < 2 * rem then q + 1
      else if q % 2 = 0 then q else q + 1
    (m2, e + (sh : Int))

/-- Floor of the nonnegative value `m * 2 ^ e`. -/
def floorPow2 (m : Nat) (e : Int) : Nat :=
  if 0 ≤ e then m * 2 ^ e.toNat else m / 2 ^ (-e).toNat

/-- Python `int((c / t) * 100)` for naturals with `t > 0`, evaluated as
CPython does: true division to a correctly rounded binary64 double, float
multiplication by 100 (a second rounding), then `int()` truncation.  For
example the exact ratio 58/200 truncates to 29, but the double for 0.29 is
slightly below it and `int((58/200)*100)` is 28 — this model reproduces
that. -/
def pyFloatPercentNat (c t : Nat) : Nat :=
  if c = 0 then 0
  else
    let (m, e) := roundDivD c t
    let (m2, e2) := roundMul100D m e
    floorPow2 m2 e2

/-- Sign-symmetric extension of `pyFloatPercentNat` to integers: binary64
rounding and `int()` truncation toward zero are both symmetric under
negation, so the magnitude is computed on naturals and the sign restored. -/
def pyFloatPercent (num den : Int) : Int :=
  let v : Int := pyFloatPercentNat num.natAbs den.natAbs
  if num * den < 0 then -v else v

/-- Python `int((num / den) * 100)`: `ZeroDivisionError` when `den = 0`,
otherwise the binary64 evaluation of the expression. -/
def pyPercent (num den : Int) : Except PyErr Int :=
  if den = 0 then .error .zeroDivision else .ok (pyFloatPercent num den)

/-- Python `d.get(key, default)` for a string-keyed dict of strings. -/
def dictGetD (m : List (String × String)) (k d : String) : String :=
  ((m.find? (fun p => p.1 == k)).map Prod.snd).getD d

/-- Python `s.upper()` (character-wise, as for the ASCII labels used here). -/
def pyUpper (s : String) : String :=
  String.mk (s.toList.map Char.toUpper)

/-- Python `s.lower()` (character-wise, as for the ASCII text used here). -/
def pyLower (s : String) : String :=
  String.mk (s.toList.map Char.toLower)

/-! ### Mock Study data model (models.MockStudySession and the generated
question dict of mock_study_service.generate_practice_question) -/

/-- The generated practice-question JSON dict
(`mock_study_service.generate_practice_question`): keys `stem`, `options`,
`correct_label`, `correct_rationale`, `incorrect_rationales`, `topic`.
An option is a `(label, text)` pair. -/
structure MockQuestion where
  stem : String
  options : List (String × String)
  correct_label : String
  correct_rationale : String
  incorrect_rationales : List (String × String)
  topic : String
deriving DecidableEq, Repr

/-- One entry of `session_history` as appended by `MockStudyViewSet.submit`. -/
structure HistoryItem where
  question_number : Int
  stem : String
  selected_label : String
  correct_label : String
  is_correct : Bool
  timestamp : Nat
deriving DecidableEq, Repr

/-- Embedding of `models.MockStudySession`.  The auto-managed `started_at`/`last_accessed`
timestamps are omitted; `exam_config` is the `(book, total_books)` pair set by
`start` (`none` models the empty dict `\x7b\x7d`). -/
structure MockStudySession where
  user : Option Nat
  domain : String
  difficulty : String
  total_questions : Int
  current_question : Int
  correct_count : Int
  topics_covered : List String
  current_question_data : Option MockQuestion
  next_question_data : Option MockQuestion
  session_history : List HistoryItem
  highlights : List String
  is_active : Bool
  completed_at : Option Nat
  mode : String
  timer_start : Option Nat
  exam_config : Option (Nat × Nat)
deriving DecidableEq, Repr

/-- Return value of `mock_study_service.generate_answer_feedback`. -/
structure Feedback where
  is_correct : Bool
  feedback_message : String
  explanation : String
deriving DecidableEq, Repr

/-- Embedding of `mock_study_service.generate_answer_feedback` — pure Python: grades by
case-insensitive exact label comparison and assembles the feedback dict. -/
def generate_answer_feedback (question_stem selected_label correct_label
    correct_rationale : String) (incorrect_rationales : List (String × String)) :
    Feedback :=
  let is_correct := pyUpper selected_label == pyUpper correct_label
  if is_correct then
    { is_correct := true
      feedback_message := "Correct! 🎉"
      explanation := correct_rationale }
  else
    let incorrect_reason := dictGetD incorrect_rationales (pyUpper selected_label)
      "This option does not align with best practices."
    { is_correct := false
      feedback_message := s!"Not quite. The correct answer is {correct_label}."
      explanation := s!"**Why {selected_label} is incorrect:** {incorrect_reason}\n\n**Correct answer ({correct_label}):** {correct_rationale}" }

/-! ### MockStudyViewSet.submit -/

/-- The `progress` sub-dict of a submit response. -/
structure Progress where
  current : Int
  total : Int
  correct : Int
  percentage : Int
deriving DecidableEq, Repr

/-- A successful submit response body.  `feedback` is the explicit
`None` in exam mode and the full feedback dict otherwise;
`next_question_ready` is present (`some true`) only in exam mode. -/
structure SubmitResponse where
  progress : Progress
  is_complete : Bool
  feedback : Option Feedback
  next_question_ready : Option Bool
deriving DecidableEq, Repr

/-- Outcome of a submit call that did not raise. -/
inductive SubmitOutcome
  | err (msg : String) (code : Nat)
  | response (resp : SubmitResponse)
deriving DecidableEq, Repr

/-- Embedding of `MockStudyViewSet.submit` (views.py lines 630-708), for a session found by
id.  Returns the stored session after the call together with the outcome.
The progress percentage `int((current_question / total_questions) * 100)` is
computed after `session.save()`, so on `ZeroDivisionError` the updated
session has already been stored. -/
def submit (session : MockStudySession) (selected_label_raw : String)
    (now : Nat) : MockStudySession × Except PyErr SubmitOutcome :=
  let selected_label := pyUpper selected_label_raw
  if !session.is_active then
    (session, .ok (.err "Session is already completed" 400))
  else
    match session.current_question_data with
    | none => (session, .ok (.err "No active question" 400))
    | some qd =>
      let feedback := generate_answer_feedback qd.stem selected_label
        qd.correct_label qd.correct_rationale qd.incorrect_rationales
      let correct_count :=
        if feedback.is_correct then session.correct_count + 1
        else session.correct_count
      let topics :=
        if qd.topic != "" && !(session.topics_covered.contains qd.topic) then
          session.topics_covered ++ [qd.topic]
        else session.topics_covered
      let item : HistoryItem :=
        { question_number := session.current_question
          stem := qd.stem
          selected_label := selected_label
          correct_label := qd.correct_label
          is_correct := feedback.is_correct
          timestamp := now }
      let is_complete := decide (session.total_questions ≤ session.current_question)
      let session' := { session with
        correct_count := correct_count
        topics_covered := topics
        session_history := session.session_history ++ [item] }
      match pyPercent session.current_question session.total_questions with
      | .error e => (session', .error e)
      | .ok pct =>
        let resp : SubmitResponse :=
          { progress :=
              { current := session.current_question
                total := session.total_questions
                correct := correct_count
                percentage := pct }
            is_complete := is_complete
            feedback :=
              if session.mode == "exam" then none else some feedback
            next_question_ready :=
              if session.mode == "exam" then some true else none }
        (session', .ok (.response resp))

/-! ### MockStudyViewSet.next -/

/-- Outcome of a next call that did not raise. -/
inductive NextOutcome
  | err (msg : String) (code : Nat)
  | complete (correct total percentage : Int)
  | question (current_question total_questions : Int) (stem : String)
      (options : List (String × String)) (highlights : List String)
deriving DecidableEq, Repr

/-- Embedding of `MockStudyViewSet.next` (views.py lines 738-801), for an active session
found by id.  `gen` is the result of the synchronous
`generate_practice_question` fallback call (the external generator is an
opaque collaborator, so its result is a parameter).  On the completion
branch the final percentage `int((correct_count / total_questions) * 100)` is
computed after the deactivating `session.save()`.  On the generation-failure
branch the function returns before any `session.save()`, so the stored
session is unchanged. -/
def next (session : MockStudySession) (gen : Option MockQuestion) (now : Nat) :
    MockStudySession × Except PyErr NextOutcome :=
  if session.total_questions ≤ session.current_question then
    let session' := { session with is_active := false, completed_at := some now }
    match pyPercent session.correct_count session.total_questions with
    | .error e => (session', .error e)
    | .ok pct =>
      (session', .ok (.complete session.correct_count session.total_questions pct))
  else
    let cq := session.current_question + 1
    match session.next_question_data with
    | some qd =>
      let session' := { session with
        current_question := cq
        next_question_data := none
        current_question_data := some qd }
      (session', .ok (.question cq session.total_questions qd.stem qd.options
        session.highlights))
    | none =>
      match gen with
      | none => (session, .ok (.err "Failed to generate question" 503))
      | some qd =>
        let session' := { session with
          current_question := cq
          current_question_data := some qd }
        (session', .ok (.question cq session.total_questions qd.stem qd.options
          session.highlights))

/-! ### MockStudyViewSet.start -/

/-- The request body of `start`; `none` models an omitted key
(`request.data.get(key, default)`). -/
structure StartRequest where
  domain : Option String
  difficulty : Option String
  total_questions : Option Int
  mode : Option String
deriving DecidableEq, Repr

/-- Outcome of a start call. -/
inductive StartOutcome
  | err (msg : String) (code : Nat)
  | created (domain difficulty : String) (total_questions current_question : Int)
      (stem : String) (options : List (String × String))
deriving DecidableEq, Repr

/-- Embedding of `MockStudyViewSet.start` (views.py lines 475-544).  `db` is the session
table; `objects.create` inserts the row and, on generation failure,
`session.delete()` removes it again, so the failure path leaves the table
unchanged.  Exam mode re-reads `total_questions` with default 200 and never
clamps it; practice mode clamps values outside \x7b10, 25, 50\x7d to 10. -/
def start (uid : Option Nat) (req : StartRequest) (gen : Option MockQuestion)
    (db : List MockStudySession) (now : Nat) :
    List MockStudySession × StartOutcome :=
  let domain := req.domain.getD "OT_EXP"
  let difficulty := req.difficulty.getD "Medium"
  let tq0 := req.total_questions.getD 10
  let mode := req.mode.getD "practice"
  let tq1 := if mode == "exam" then req.total_questions.getD 200 else tq0
  let exam_config :=
    if mode == "exam" then
      (if tq1 == 200 then some (1, 2) else some (1, 1))
    else none
  let total_questions :=
    if mode == "practice" && !(([10, 25, 50] : List Int).contains tq1) then 10
    else tq1
  let session : MockStudySession :=
    { user := uid
      domain := domain
      difficulty := difficulty
      total_questions := total_questions
      current_question := 1
      correct_count := 0
      topics_covered := []
      current_question_data := none
      next_question_data := none
      session_history := []
      highlights := []
      is_active := true
      completed_at := none
      mode := mode
      timer_start := if mode == "exam" then some now else none
      exam_config := exam_config }
  match gen with
  | none => (db, .err "Failed to generate question" 503)
  | some qd =>
    let session' := { session with current_question_data := some qd }
    (db ++ [session'], .created domain difficulty total_questions 1 qd.stem
      qd.options)

/-! ### Evidence-link analysis (gemini_service.analyze_evidence_link,
the deterministic post-parse pipeline of lines 189-238) -/

/-- A user highlight dict with Python `dict.get` defaults (`start`/`end`
default 0, `text` default the empty string); the source key `end` is a Lean
keyword and is embedded as `endIdx`. -/
structure UserHighlight where
  start : Option Int
  endIdx : Option Int
  text : Option String
deriving DecidableEq, Repr

/-- One entry of the provider's `expert_indicators` list
(`indicator.get("text", "")`, `indicator.get("importance", "supporting")`). -/
structure IndicatorData where
  text : Option String
  importance : Option String
deriving DecidableEq, Repr

/-- A located expert highlight `\x7bstart, end, text, importance\x7d`. -/
structure ExpertHighlight where
  start : Nat
  endIdx : Nat
  text : String
  importance : String
deriving DecidableEq, Repr

/-- Helper for `strFind`: first index at or after `i` where `needle` is a
prefix of the remaining haystack. -/
def findSubAux (needle : List Char) : List Char → Nat → Option Nat
  | [], i => if needle.isPrefixOf ([] : List Char) then some i else none
  | c :: cs, i =>
    if needle.isPrefixOf (c :: cs) then some i else findSubAux needle cs (i + 1)

/-- Python `hay.find(needle)`: character index of the first occurrence, with
the source's `-1` modelled as `none`. -/
def strFind (hay needle : String) : Option Nat :=
  findSubAux needle.toList hay.toList 0

/-- The expert-indicator location loop (gemini_service.py lines 190-203):
each indicator text is located by exact first-occurrence search in the
vignette; a text not found verbatim is silently dropped. -/
def locateIndicators (vignette : String) (indicators : List IndicatorData) :
    List ExpertHighlight :=
  indicators.filterMap fun ind =>
    let text := ind.text.getD ""
    let importance := ind.importance.getD "supporting"
    match strFind vignette text with
    | none => none
    | some s =>
      some { start := s, endIdx := s + text.length, text := text,
             importance := importance }

/-- The per-indicator match test (gemini_service.py lines 210-221): the code
accepts a user highlight that covers the indicator's start
(`uh_start <= eh_start < uh_end`), or covers its end
(`uh_start < eh_end <= uh_end`), or whose text contains the indicator's text
case-insensitively.  A user highlight strictly inside the indicator's
interval satisfies none of the three conditions. -/
def matchesHighlight (eh : ExpertHighlight) (uh : UserHighlight) : Bool :=
  let us := uh.start.getD 0
  let ue := uh.endIdx.getD 0
  (decide (us ≤ (eh.start : Int)) && decide ((eh.start : Int) < ue)) ||
  (decide (us < (eh.endIdx : Int)) && decide ((eh.endIdx : Int) ≤ ue)) ||
  (strFind (pyLower (uh.text.getD "")) (pyLower eh.text)).isSome

/-- The `matched_count` of the comparison loop (lines 206-226). -/
def matchedCount (ehs : List ExpertHighlight) (uhs : List UserHighlight) : Nat :=
  (ehs.filter (fun eh => uhs.any (matchesHighlight eh))).length

/-- The `missed_indicators` of the comparison loop (lines 206-226). -/
def missedIndicators (ehs : List ExpertHighlight) (uhs : List UserHighlight) :
    List ExpertHighlight :=
  ehs.filter (fun eh => !(uhs.any (matchesHighlight eh)))

/-- The score computation (lines 228-230):
`int((matched_count / total_indicators) * 100) if total_indicators > 0 else 0`,
with the float expression modelled as exact truncating division. -/
def evidenceScore (vignette : String) (indicators : List IndicatorData)
    (uhs : List UserHighlight) : Nat :=
  let ehs := locateIndicators vignette indicators
  let total := ehs.length
  if total = 0 then 0 else matchedCount ehs uhs * 100 / total

/-! ### Case-study persistence (CaseStudyViewSet.generate, views.py 229-268) -/

/-- One entry of a question's `distractors` list in the parsed provider JSON. -/
structure DistractorData where
  label : Option String
  text : Option String
  incorrect_rationale : Option String
deriving DecidableEq, Repr

/-- One entry of `questions` in the parsed provider JSON. -/
structure QuestionDataJson where
  stem : Option String
  domain : Option String
  correct_label : Option String
  correct_rationale : Option String
  distractors : List DistractorData
deriving DecidableEq, Repr

/-- The parsed provider JSON for a full case study. -/
structure CaseDataJson where
  title : Option String
  vignette : Option String
  setting : Option String
  questions : List QuestionDataJson
deriving DecidableEq, Repr

/-- A persisted Question row (the domain column receives
`q_data.get('domain', 'OT_EXP')`). -/
structure StoredQuestion where
  stem : Option String
  domain : String
  correct_label : Option String
  correct_rationale : Option String
  distractors : List DistractorData
deriving DecidableEq, Repr

/-- The persisted CaseStudy row with its Question children. -/
structure StoredCase where
  title : String
  vignette : String
  setting : String
  tags : List String
  questions : List StoredQuestion
deriving DecidableEq, Repr

/-- The persistence step of `CaseStudyViewSet.generate` (views.py 229-268):
the case row is created from the parsed data, then one Question per entry of
`questions` (domain defaulting to `OT_EXP`), then its Distractors.  No
validation of the question count or of domain coverage is performed. -/
def persistCase (domain difficulty : String) (data : CaseDataJson) : StoredCase :=
  { title := data.title.getD "Untitled Case"
    vignette := data.vignette.getD ""
    setting := data.setting.getD "General"
    tags := ["AI-Generated", domain, difficulty]
    questions := data.questions.map fun q =>
      { stem := q.stem
        domain := q.domain.getD "OT_EXP"
        correct_label := q.correct_label
        correct_rationale := q.correct_rationale
        distractors := q.distractors } }

/-! ### Access gate (permissions.IsPaidUser, views.MockStudyViewSet.get_permissions,
models.UserProfile, serializers.UserProfileSerializer) -/

/-- The field names declared on `models.UserProfile` (models.py lines 75-78):
`user`, `bio`, `target_exam_date` — and nothing else. -/
def userProfileModelFields : List String := ["user", "bio", "target_exam_date"]

/-- The field names listed by `serializers.UserProfileSerializer`
(serializers.py line 8). -/
def userProfileSerializerFields : List String :=
  ["subscription_tier", "is_paid", "target_exam_date"]

/-- A stored `UserProfile` row, carrying exactly the declared model fields
(besides the user link). -/
structure UserProfileRow where
  bio : String
  target_exam_date : Option String
deriving DecidableEq, Repr

/-- The Python attribute read `profile.is_paid` on a stored UserProfile row:
`models.UserProfile` declares no `is_paid` field, so the attribute lookup
raises `AttributeError` for every row. -/
def readIsPaid (p : UserProfileRow) : Except PyErr Bool :=
  .error .attributeError

/-- Embedding of `permissions.IsPaidUser.has_permission`: unauthenticated requests are
denied; otherwise the handler returns `profile.is_paid`, with
`AttributeError` caught and turned into a denial. -/
def has_permission (authenticated : Bool) (p : UserProfileRow) : Bool :=
  if !authenticated then false
  else
    match readIsPaid p with
    | .ok b => b
    | .error _ => false

/-- The DRF permission classes instantiated by `get_permissions`. -/
inductive PermClass
  | isAuthenticated
  | isPaidUser
deriving DecidableEq, Repr

/-- Embedding of `MockStudyViewSet.get_permissions` (views.py lines 462-468). -/
def get_permissions (action : String) : List PermClass :=
  if (["start", "next", "prefetch", "pivot"] : List String).contains action then
    [PermClass.isAuthenticated, PermClass.isPaidUser]
  else [PermClass.isAuthenticated]

/-! ### Module well-formedness of gemini_service.py -/

/-- The round brackets, in source order, of the statement region at
gemini_service.py lines 176-184 — the provider call of
`analyze_evidence_link` (`client.models.generate_content(` opening, the
nested `types.GenerateContentConfig(` opening, their two closers) followed by
the stray closing parenthesis standing alone on line 184.  No bracket occurs
inside a string literal in that region. -/
def analyzeTryBrackets : List Char := ['(', '(', ')', ')', ')']

/-- A left-to-right bracket scan in the style of the Python tokenizer: a
closing parenthesis read at nesting depth zero is a syntax error (unmatched
closer), and any remaining depth at the end is an unclosed opener. -/
def parenScanOk : Nat → List Char → Bool
  | d, [] => d == 0
  | d, c :: cs =>
    if c == '(' then parenScanOk (d + 1) cs
    else if c == ')' then
      match d with
      | 0 => false
      | d' + 1 => parenScanOk d' cs
    else parenScanOk d cs

/-! ### Definitions taken from the specification's wording, for comparison
with the code-derived definitions above -/

/-- Modelled from the claim wording "round(correct_count / total_questions *
100)": Python `round()` — round half to even — of the exact ratio, for
`total > 0`. -/
def specRoundPercent (correct total : Nat) : Nat :=
  let n := correct * 100
  let q := n / total
  let r := n % total
  if 2 * r < total then q
  else if total < 2 * r then q + 1
  else if q % 2 = 0 then q else q + 1

/-- Modelled from the claim wording "some user highlight overlaps its
character interval": two half-open character intervals overlap iff their
intersection is nonempty. -/
def specIntervalsOverlap (s1 e1 s2 e2 : Int) : Bool :=
  decide (max s1 s2 < min e1 e2)

/-! ## Concrete fixtures -/

/-- A concrete generated practice question used across the session scenarios. -/
def qdA : MockQuestion :=
  { stem := "Which action should the OT take first?"
    options := [("A", "Assess"), ("B", "Refer"), ("C", "Treat"), ("D", "Wait")]
    correct_label := "A"
    correct_rationale := "Assessment precedes intervention."
    incorrect_rationales :=
      [("B", "Referral is premature."), ("C", "Treatment needs assessment."),
       ("D", "Waiting delays care.")]
    topic := "assessment" }

/-- An active exam session on its last question (200 of 200) with 3 correct
answers. -/
def sessionLast : MockStudySession :=
  { user := some 1
    domain := "OT_EXP"
    difficulty := "Medium"
    total_questions := 200
    current_question := 200
    correct_count := 3
    topics_covered := []
    current_question_data := some qdA
    next_question_data := none
    session_history := []
    highlights := []
    is_active := true
    completed_at := none
    mode := "exam"
    timer_start := some 0
    exam_config := some (1, 2) }

/-- An active practice session on question 1 of 10 with no prefetched
question. -/
def sessionMid : MockStudySession :=
  { sessionLast with
    total_questions := 10
    current_question := 1
    correct_count := 0
    mode := "practice"
    timer_start := none
    exam_config := none }

/-! ## Claims -/

/-- C1, counterexample: `next` on an active exam session with
`current_question = total_questions = 200` and `correct_count = 3` returns a
final percentage of 1 — the double for `(3/200)*100` is exactly 1.5 and
`int()` truncates it to 1 — while the claim's
`round(correct_count / total_questions * 100) = round(1.5)` is 2 under
Python's round-half-to-even, so the claimed equality fails at this session. -/
theorem C1_counterexample :
    (next sessionLast none 7).2 = .ok (.complete 3 200 1) ∧
    specRoundPercent 3 200 = 2 ∧ (1 : Int) ≠ 2 :=
  ⟨rfl, rfl, by decide⟩

/-- C1 (amended): for every active session whose `current_question` equals a
positive `total_questions`, `next` deactivates the session, sets
`completed_at`, and returns summary statistics whose final percentage is
Python's `int((correct_count / total_questions) * 100)` evaluated in IEEE-754
binary64 arithmetic — the truncation toward zero of the twice-rounded float
product, which differs from `round(...)` (1 versus 2 at 3 of 200) and can
even differ from the exact floor (28 versus 29 at 58 of 200). -/
theorem C1_theorem (s : MockStudySession) (gen : Option MockQuestion) (now : Nat)
    (h1 : s.is_active = true)
    (h2 : s.current_question = s.total_questions)
    (h3 : 0 < s.total_questions) :
    (next s gen now).1.is_active = false ∧
    (next s gen now).1.completed_at = some now ∧
    (next s gen now).2 = .ok (.complete s.correct_count s.total_questions
      (pyFloatPercent s.correct_count s.total_questions)) := by
  have hle : s.total_questions ≤ s.current_question := le_of_eq h2.symm
  have hne : s.total_questions ≠ 0 := by omega
  unfold next pyPercent
  rw [if_pos hle, if_neg hne]
  exact ⟨rfl, rfl, rfl⟩

/-- C1 witness: the amended statement evaluated on a concrete completed
practice session (10 of 10, 7 correct, percentage 70), together with concrete
evaluations of the float model: 7 of 10 gives 70, while 58 of 200 gives 28
(the exact floor of 29 is not what the program computes) and 3 of 200 gives
the truncation 1. -/
theorem C1_witness :
    ((next { sessionMid with current_question := 10, correct_count := 7 } none 3).1.is_active
        = false ∧
     (next { sessionMid with current_question := 10, correct_count := 7 } none 3).1.completed_at
        = some 3 ∧
     (next { sessionMid with current_question := 10, correct_count := 7 } none 3).2
        = .ok (.complete 7 10 (pyFloatPercent 7 10))) ∧
    pyFloatPercent 7 10 = 70 ∧
    pyFloatPercent 58 200 = 28 ∧
    pyFloatPercent 3 200 = 1 :=
  ⟨C1_theorem { sessionMid with current_question := 10, correct_count := 7 }
    none 3 rfl rfl (by decide), by decide, by decide, by decide⟩

/-- C2, counterexample: for the active practice session on question 1 of 10
with no prefetched question, a `next` call whose synchronous generation
returns no data leaves the stored session unchanged — its stored
`current_question` is still 1, not the incremented value 2 the claim
asserts — and returns the 503 error response. -/
theorem C2_counterexample :
    (next sessionMid none 5).1 = sessionMid ∧
    (next sessionMid none 5).2 = .ok (.err "Failed to generate question" 503) ∧
    sessionMid.current_question = 1 ∧
    (next sessionMid none 5).1.current_question ≠ sessionMid.current_question + 1 :=
  ⟨rfl, rfl, rfl, by decide⟩

/-- C2 (amended): when `next` advances past a non-final question with no
prefetched question available and the generator returns no data, the error
response is returned before any `session.save()`, so the in-memory increment
of `current_question` is discarded: the stored session after the failure is
exactly the pre-call session (the increment is implicitly rolled back rather
than persisted). -/
theorem C2_theorem (s : MockStudySession) (now : Nat)
    (h1 : s.current_question < s.total_questions)
    (h2 : s.next_question_data = none) :
    (next s none now).1 = s ∧
    (next s none now).2 = .ok (.err "Failed to generate question" 503) := by
  have hgt : ¬ s.total_questions ≤ s.current_question := by omega
  unfold next
  rw [if_neg hgt, h2]
  exact ⟨rfl, rfl⟩

/-- C2 witness: the amended statement evaluated on the concrete mid-session
fixture. -/
theorem C2_witness :
    (next sessionMid none 5).1 = sessionMid ∧
    (next sessionMid none 5).2 = .ok (.err "Failed to generate question" 503) :=
  C2_theorem sessionMid 5 (by decide) rfl

/-- The response body of a submit call, when one was produced. -/
def submitResp (r : MockStudySession × Except PyErr SubmitOutcome) :
    Option SubmitResponse :=
  match r.2 with
  | .ok (.response resp) => some resp
  | _ => none

/-- On an active session with a stored current question and a nonzero
`total_questions`, `submit` produces the response computed from the grading
of the uppercased selected label. -/
theorem submit_resp_eq (s : MockStudySession) (qd : MockQuestion) (raw : String)
    (now : Nat) (hact : s.is_active = true)
    (hqd : s.current_question_data = some qd)
    (htot : s.total_questions ≠ 0) :
    submitResp (submit s raw now) = some
      { progress :=
          { current := s.current_question
            total := s.total_questions
            correct :=
              if (generate_answer_feedback qd.stem (pyUpper raw) qd.correct_label
                  qd.correct_rationale qd.incorrect_rationales).is_correct then
                s.correct_count + 1
              else s.correct_count
            percentage := pyFloatPercent s.current_question s.total_questions }
        is_complete := decide (s.total_questions ≤ s.current_question)
        feedback :=
          if s.mode == "exam" then none
          else some (generate_answer_feedback qd.stem (pyUpper raw) qd.correct_label
            qd.correct_rationale qd.incorrect_rationales)
        next_question_ready := if s.mode == "exam" then some true else none } := by
  unfold submit pyPercent
  rw [hact, hqd, if_neg htot]
  rfl

/-- An active exam session in mid-flight (question 5 of 200, correct count 0)
whose stored question has correct label A. -/
def sessionExamMid : MockStudySession :=
  { sessionLast with current_question := 5, correct_count := 0 }

/-- C3, counterexample: two exam-mode submissions from identical session
state, one selecting the correct label A and one the incorrect label B, both
carry `feedback = null`, yet the responses are distinguishable: the reported
`progress.correct` is 1 after the correct answer and 0 after the incorrect
one, so the response does reveal which submission was correct. -/
theorem C3_counterexample :
    (submitResp (submit sessionExamMid "A" 0)).map (fun r => r.feedback)
        = some none ∧
    (submitResp (submit sessionExamMid "B" 0)).map (fun r => r.feedback)
        = some none ∧
    (submitResp (submit sessionExamMid "A" 0)).map (fun r => r.progress.correct)
        = some 1 ∧
    (submitResp (submit sessionExamMid "B" 0)).map (fun r => r.progress.correct)
        = some 0 ∧
    submitResp (submit sessionExamMid "A" 0)
        ≠ submitResp (submit sessionExamMid "B" 0) := by
  refine ⟨by decide, by decide, by decide, by decide, by decide⟩

/-- C3 (amended): exam-mode submit responses always carry `feedback = null`
and non-exam (practice) responses always carry the full feedback dict, but
exam-mode responses nevertheless reveal whether the submitted answer was
correct: the reported `progress.correct` is the prior `correct_count + 1`
exactly when the grading marks the answer correct, so two submissions from
identical state, one correct and one incorrect, yield distinguishable
responses. -/
theorem C3_theorem (s : MockStudySession) (qd : MockQuestion) (now : Nat)
    (hact : s.is_active = true) (hqd : s.current_question_data = some qd)
    (htot : s.total_questions ≠ 0) :
    (∀ raw r, s.mode = "exam" → submitResp (submit s raw now) = some r →
      r.feedback = none) ∧
    (∀ raw r, s.mode ≠ "exam" → submitResp (submit s raw now) = some r →
      r.feedback = some (generate_answer_feedback qd.stem (pyUpper raw)
        qd.correct_label qd.correct_rationale qd.incorrect_rationales)) ∧
    (∀ raw1 raw2,
      (generate_answer_feedback qd.stem (pyUpper raw1) qd.correct_label
        qd.correct_rationale qd.incorrect_rationales).is_correct = true →
      (generate_answer_feedback qd.stem (pyUpper raw2) qd.correct_label
        qd.correct_rationale qd.incorrect_rationales).is_correct = false →
      submitResp (submit s raw1 now) ≠ submitResp (submit s raw2 now)) := by
  refine ⟨?_, ?_, ?_⟩
  · intro raw r hmode hr
    rw [submit_resp_eq s qd raw now hact hqd htot] at hr
    injection hr with hr
    subst hr
    simp [hmode]
  · intro raw r hmode hr
    rw [submit_resp_eq s qd raw now hact hqd htot] at hr
    injection hr with hr
    subst hr
    have hb : (s.mode == "exam") = false := by
      simpa using hmode
    simp [hb]
  · intro raw1 raw2 h1 h2 heq
    rw [submit_resp_eq s qd raw1 now hact hqd htot,
        submit_resp_eq s qd raw2 now hact hqd htot] at heq
    have hcorr := congrArg (fun o => (o.map (fun r => r.progress.correct)).getD 0)
      heq
    simp only [Option.map_some, Option.getD_some, h1, h2] at hcorr
    simp at hcorr

/-- C3 witness: the amended statement instantiated on the concrete exam
session — in particular the correct submission A and the incorrect submission
B yield distinguishable responses. -/
theorem C3_witness :
    submitResp (submit sessionExamMid "A" 0)
      ≠ submitResp (submit sessionExamMid "B" 0) :=
  (C3_theorem sessionExamMid qdA 0 rfl rfl (by decide)).2.2 "A" "B"
    (by decide) (by decide)

/-- C4: the statement region of the provider call inside
`analyze_evidence_link` ends with an unmatched closing parenthesis
(gemini_service.py line 184), so the bracket scan rejects it: the module does
not compile as Python, and every entry point of `gemini_service.py`
(`generate_full_case_study`, `get_evolving_rationale`,
`analyze_evidence_link`) raises at import time instead of returning the
documented `None` / zero-score sentinels. -/
theorem C4_theorem : parenScanOk 0 analyzeTryBrackets = false := rfl

/-- C5: `models.UserProfile` declares no `is_paid` field even though the
model's own serializer lists one, so the `profile.is_paid` read in
`IsPaidUser.has_permission` raises `AttributeError`, which the handler
swallows into a denial: `has_permission` returns `false` for every
authenticated user and every stored profile, and the paid-gated actions
`start`/`next`/`prefetch`/`pivot` are therefore never permitted for anyone —
while `submit`, `save_progress` and `get_active` are indeed gated by
authentication only. -/
theorem C5_theorem :
    (∀ (authenticated : Bool) (p : UserProfileRow),
      has_permission authenticated p = false) ∧
    ("is_paid" ∈ userProfileSerializerFields ∧
      "is_paid" ∉ userProfileModelFields) ∧
    get_permissions "start" = [PermClass.isAuthenticated, PermClass.isPaidUser] ∧
    get_permissions "next" = [PermClass.isAuthenticated, PermClass.isPaidUser] ∧
    get_permissions "prefetch"
      = [PermClass.isAuthenticated, PermClass.isPaidUser] ∧
    get_permissions "pivot" = [PermClass.isAuthenticated, PermClass.isPaidUser] ∧
    get_permissions "submit" = [PermClass.isAuthenticated] ∧
    get_permissions "save_progress" = [PermClass.isAuthenticated] ∧
    get_permissions "get_active" = [PermClass.isAuthenticated] := by
  refine ⟨fun authenticated p => ?_, by decide, by decide, by decide, by decide,
    by decide, by decide, by decide, by decide⟩
  cases authenticated <;> rfl

/-- A provider question entry with the given domain tag. -/
def questionJsonWith (d : String) : QuestionDataJson :=
  { stem := some "A question stem"
    domain := some d
    correct_label := some "A"
    correct_rationale := some "Because it is best practice."
    distractors := [] }

/-- A parsed provider output with 6 questions, none tagged CEJ_JUSTICE. -/
def caseDataNoCej : CaseDataJson :=
  { title := some "Acute Care Transitions"
    vignette := some "A 70-year-old client is admitted after a fall."
    setting := some "Acute Care"
    questions :=
      [questionJsonWith "OT_EXP", questionJsonWith "OT_EXP",
       questionJsonWith "COMM_COLLAB", questionJsonWith "PROF_RESP",
       questionJsonWith "EXCELLENCE", questionJsonWith "ENGAGEMENT"] }

/-- C6, counterexample: the generation endpoint persists parsed provider
output as-is, so a provider result with 6 questions none of which carries the
CEJ_JUSTICE domain is stored as a case study with 6 questions and no
CEJ_JUSTICE question — the claimed invariant fails for this persisted case. -/
theorem C6_counterexample :
    (persistCase "OT Expertise" "Medium" caseDataNoCej).questions.length = 6 ∧
    ¬ ∃ q ∈ (persistCase "OT Expertise" "Medium" caseDataNoCej).questions,
        q.domain = "CEJ_JUSTICE" := by
  refine ⟨rfl, by decide⟩

/-- C6 (amended): the ≥1-CEJ_JUSTICE requirement appears only in the
generation prompt and is not enforced server-side: the persisted case study
contains a CEJ_JUSTICE-tagged question exactly when the parsed provider data
does (with missing domain fields defaulting to OT_EXP), so a persisted case
need not contain one. -/
theorem C6_theorem (domain difficulty : String) (data : CaseDataJson) :
    ((persistCase domain difficulty data).questions.any
        (fun q => q.domain == "CEJ_JUSTICE"))
      = (data.questions.any
        (fun q => q.domain.getD "OT_EXP" == "CEJ_JUSTICE")) := by
  unfold persistCase
  generalize data.questions = l
  induction l with
  | nil => rfl
  | cons q qs ih => simp only [List.map_cons, List.any_cons, ih]

/-- C7: if question generation fails during `start`, the freshly created
session row is deleted again — the stored session table is exactly the
pre-call table — and the 503 service-unavailable error is returned; on
success the table gains one session whose `current_question` is 1 and whose
`current_question_data` is the generated question #1. -/
theorem C7_theorem (uid : Option Nat) (req : StartRequest) (qd : MockQuestion)
    (db : List MockStudySession) (now : Nat) :
    (start uid req none db now).1 = db ∧
    (start uid req none db now).2 = .err "Failed to generate question" 503 ∧
    (∃ s, (start uid req (some qd) db now).1 = db ++ [s] ∧
      s.current_question = 1 ∧ s.current_question_data = some qd ∧
      s.is_active = true) := by
  exact ⟨rfl, rfl, ⟨_, rfl, rfl, rfl, rfl⟩⟩

/-- The `total_questions` column of the most recently inserted session row. -/
def lastSessionTotal (db : List MockStudySession) : Option Int :=
  db.getLast?.map (fun s => s.total_questions)

/-- C8: `start` silently clamps a practice-mode `total_questions` outside
\x7b10, 25, 50\x7d to 10 (no rejection); in exam mode the client-supplied
value is stored without any independent clamping, and the 200 default applies
only when the key is omitted. -/
theorem C8_theorem (uid : Option Nat) (req : StartRequest) (qd : MockQuestion)
    (db : List MockStudySession) (now : Nat) :
    (∀ t : Int, req.mode.getD "practice" = "practice" →
      req.total_questions = some t → t ∉ ([10, 25, 50] : List Int) →
      lastSessionTotal (start uid req (some qd) db now).1 = some 10) ∧
    (∀ t : Int, req.mode.getD "practice" = "exam" →
      req.total_questions = some t →
      lastSessionTotal (start uid req (some qd) db now).1 = some t) ∧
    (req.mode.getD "practice" = "exam" → req.total_questions = none →
      lastSessionTotal (start uid req (some qd) db now).1 = some 200) := by
  refine ⟨?_, ?_, ?_⟩
  · intro t hmode ht hnot
    simp only [List.mem_cons, List.mem_singleton, not_or] at hnot
    simp [start, lastSessionTotal, hmode, ht, List.getLast?_concat, hnot.1,
      hnot.2.1, hnot.2.2]
  · intro t hmode ht
    simp [start, lastSessionTotal, hmode, ht, List.getLast?_concat]
  · intro hmode ht
    simp [start, lastSessionTotal, hmode, ht, List.getLast?_concat]

/-- A practice-mode start request with the invalid count 30. -/
def reqPractice30 : StartRequest :=
  { domain := none, difficulty := none, total_questions := some 30,
    mode := some "practice" }

/-- An exam-mode start request with the arbitrary count 77. -/
def reqExam77 : StartRequest :=
  { domain := none, difficulty := none, total_questions := some 77,
    mode := some "exam" }

/-- An exam-mode start request omitting `total_questions`. -/
def reqExamDefault : StartRequest :=
  { domain := none, difficulty := none, total_questions := none,
    mode := some "exam" }

/-- C8 witness: practice-mode 30 is clamped to 10; exam-mode 77 is stored
as 77; an omitted exam-mode count defaults to 200. -/
theorem C8_witness :
    lastSessionTotal (start none reqPractice30 (some qdA) [] 0).1 = some 10 ∧
    lastSessionTotal (start none reqExam77 (some qdA) [] 0).1 = some 77 ∧
    lastSessionTotal (start none reqExamDefault (some qdA) [] 0).1 = some 200 :=
  ⟨(C8_theorem none reqPractice30 qdA [] 0).1 30 rfl rfl (by decide),
   (C8_theorem none reqExam77 qdA [] 0).2.1 77 rfl rfl,
   (C8_theorem none reqExamDefault qdA [] 0).2.2 rfl rfl⟩

/-- A vignette for the evidence-link scenario. -/
def vignetteC9 : String := "abcdefghijklmnopqrstuvwxyz"

/-- An expert indicator whose text is the vignette slice [10, 20). -/
def indicatorC9 : IndicatorData :=
  { text := some "klmnopqrst", importance := some "critical" }

/-- A user highlight strictly inside the indicator: the slice [12, 15). -/
def userHighlightC9 : UserHighlight :=
  { start := some 12, endIdx := some 15, text := some "mno" }

/-- C9: the code's match test contradicts its own stated overlap rule.  The
indicator is located at the interval [10, 20); the user highlight [12, 15)
lies strictly inside it, so the two intervals overlap — the claim (and the
code's own comment, "user highlight covers at least part of expert
indicator") counts this as matched — yet the code's endpoint conditions and
its substring test all fail, so matched_count is 0 and the score is 0
instead of 100. -/
theorem C9_theorem :
    locateIndicators vignetteC9 [indicatorC9]
      = [{ start := 10, endIdx := 20, text := "klmnopqrst",
           importance := "critical" }] ∧
    specIntervalsOverlap 10 20 12 15 = true ∧
    matchesHighlight
      { start := 10, endIdx := 20, text := "klmnopqrst",
        importance := "critical" } userHighlightC9 = false ∧
    matchedCount (locateIndicators vignetteC9 [indicatorC9]) [userHighlightC9]
      = 0 ∧
    evidenceScore vignetteC9 [indicatorC9] [userHighlightC9] = 0 := by
  refine ⟨by decide, by decide, by decide, by decide, by decide⟩

/-- Lemma: `submit` raises only through the progress-percentage division, which is
guarded by nothing: with a nonzero `total_questions` no submit call raises. -/
theorem submit_no_raise (s : MockStudySession) (raw : String) (now : Nat)
    (h : s.total_questions ≠ 0) (e : PyErr) :
    (submit s raw now).2 ≠ .error e := by
  unfold submit pyPercent
  cases hact : s.is_active with
  | false => simp [hact]
  | true =>
    cases hqd : s.current_question_data with
    | none => simp [hact, hqd]
    | some qd => simp [hact, hqd, h]

/-- Lemma: `next` raises only through the final-score division: with a nonzero
`total_questions` no next call raises. -/
theorem next_no_raise (s : MockStudySession) (gen : Option MockQuestion)
    (now : Nat) (h : s.total_questions ≠ 0) (e : PyErr) :
    (next s gen now).2 ≠ .error e := by
  unfold next pyPercent
  by_cases hc : s.total_questions ≤ s.current_question
  · simp [hc, h]
  · cases hq : s.next_question_data with
    | some qd => simp [hc, hq]
    | none =>
      cases gen with
      | none => simp [hc, hq]
      | some qd => simp [hc, hq]

/-- An exam-mode start request with `total_questions = 0`. -/
def reqExamZero : StartRequest :=
  { domain := none, difficulty := none, total_questions := some 0,
    mode := some "exam" }

/-- An exam-mode start request with `total_questions = -5`. -/
def reqExamNeg : StartRequest :=
  { domain := none, difficulty := none, total_questions := some (-5),
    mode := some "exam" }

/-- The session row produced by `start` for `reqExamZero` (generation
succeeding with `qdA`). -/
def sessionExamZero : MockStudySession :=
  { user := none
    domain := "OT_EXP"
    difficulty := "Medium"
    total_questions := 0
    current_question := 1
    correct_count := 0
    topics_covered := []
    current_question_data := some qdA
    next_question_data := none
    session_history := []
    highlights := []
    is_active := true
    completed_at := none
    mode := "exam"
    timer_start := some 0
    exam_config := some (1, 1) }

/-- C10: exam-mode `start` stores the client-supplied `total_questions`
without validation, so sessions with `total_questions = 0` (and negative
values) are reachable; on the zero-total session both `submit`'s progress
percentage and `next`'s final-score percentage raise `ZeroDivisionError`,
while under the implicit precondition `total_questions > 0` neither `submit`
nor `next` ever raises. -/
theorem C10_theorem :
    (start none reqExamZero (some qdA) [] 0).1 = [sessionExamZero] ∧
    sessionExamZero.total_questions = 0 ∧
    lastSessionTotal (start none reqExamNeg (some qdA) [] 0).1 = some (-5) ∧
    (submit sessionExamZero "A" 0).2 = .error PyErr.zeroDivision ∧
    (next sessionExamZero none 0).2 = .error PyErr.zeroDivision ∧
    (∀ (s : MockStudySession) (raw : String) (gen : Option MockQuestion)
        (now : Nat) (e : PyErr), 0 < s.total_questions →
      (submit s raw now).2 ≠ .error e ∧ (next s gen now).2 ≠ .error e) := by
  refine ⟨rfl, rfl, rfl, rfl, rfl, ?_⟩
  intro s raw gen now e h
  exact ⟨submit_no_raise s raw now (by omega) e,
    next_no_raise s gen now (by omega) e⟩

/-- C10 witness: the safety half evaluated on the concrete practice session
with `total_questions = 10`. -/
theorem C10_witness :
    (submit sessionMid "A" 0).2 ≠ .error PyErr.zeroDivision ∧
    (next sessionMid (some qdA) 0).2 ≠ .error PyErr.zeroDivision :=
  C10_theorem.2.2.2.2.2 sessionMid "A" (some qdA) 0 PyErr.zeroDivision
    (by decide)

end Notce
